import Mathlib

/-!
Verification of the FUTURA budget-tracker backend (src/backend/server.py).

Shallow embedding conventions:
- Python floats (money amounts, budgets) are modelled as rationals.
- Datetimes are modelled as integer timestamps (seconds); the stored ISO
  string comparison `date >= start.isoformat()` is order-isomorphic to
  integer comparison, and MongoDB type bracketing means a `$gte`-on-string
  query never matches a null date.
- MongoDB documents for transactions are `Doc` records whose `date` field
  is `Option Int` (an update can write a null date); the pydantic
  `Transaction` response model requires a present date, so parsing a doc
  (`Transaction(**t)`) is `parseDoc : Doc → Except String Transaction`.
- A Python list comprehension that constructs models is `mapE`, failing at
  the first invalid element, as pydantic raises there.
- `db.transactions` / `db.users` are Lean lists in insertion order;
  `insert_one` appends, `update_one` rewrites the first matching document.
-/

namespace Futura

/-- The pydantic `User` model (password hash lives only in the stored doc). -/
structure User where
  id : String
  name : String
  email : String
  currency : String
  monthly_budget : ℚ
  created_at : Int
deriving DecidableEq

/-- A user document as stored in `db.users` (the `User` fields plus the hash). -/
structure UserDoc where
  id : String
  name : String
  email : String
  currency : String
  monthly_budget : ℚ
  created_at : Int
  password_hash : String
deriving DecidableEq

/-- A transaction document as stored in `db.transactions`.  The `date` field
is nullable because `update_transaction` writes the raw payload dict, whose
`date` key may be `None`. -/
structure Doc where
  id : String
  user_id : String
  type : String
  amount : ℚ
  category : String
  description : String
  payment_type : String
  tags : List String
  date : Option Int
  created_at : Int
  deleted : Bool
deriving DecidableEq

/-- The pydantic `Transaction` response model: `date` is mandatory here. -/
structure Transaction where
  id : String
  user_id : String
  type : String
  amount : ℚ
  category : String
  description : String
  payment_type : String
  tags : List String
  date : Int
  created_at : Int
  deleted : Bool
deriving DecidableEq

/-- `Transaction(**t)` on a doc whose date is present. -/
def txOfDoc (d : Doc) (dt : Int) : Transaction :=
  ⟨d.id, d.user_id, d.type, d.amount, d.category, d.description,
   d.payment_type, d.tags, dt, d.created_at, d.deleted⟩

/-- `Transaction(**parse_from_mongo(t))`: pydantic validation fails when the
stored `date` is null. -/
def parseDoc (d : Doc) : Except String Transaction :=
  match d.date with
  | some dt => .ok (txOfDoc d dt)
  | none => .error "none is not an allowed value for date"

/-- A Python list comprehension building models: stops with the exception of
the first element that fails validation. -/
def mapE (f : α → Except ε β) : List α → Except ε (List β)
  | [] => .ok []
  | a :: l =>
    match f a with
    | .error e => .error e
    | .ok b =>
      match mapE f l with
      | .error e => .error e
      | .ok bs => .ok (b :: bs)

/-- Insert into a list already arranged by `le` (insertion-sort step). -/
def insertBy (le : α → α → Bool) (a : α) : List α → List α
  | [] => [a]
  | b :: l => if le a b then a :: b :: l else b :: insertBy le a l

/-- Insertion sort, modelling Mongo's `.sort("date", -1)` cursor ordering. -/
def sortBy (le : α → α → Bool) : List α → List α
  | [] => []
  | a :: l => insertBy le a (sortBy le l)

/-- Descending-date order on parsed transactions. -/
def txDateDesc (a b : Transaction) : Bool := b.date ≤ a.date

/-- Descending-date order on raw docs; BSON sorts null before numbers, so a
null date sorts last in a descending sort. -/
def docDateDesc (a b : Doc) : Bool :=
  match a.date, b.date with
  | some x, some y => y ≤ x
  | some _, none => true
  | none, some _ => false
  | none, none => true

/-- `sum(t.amount for t in l)`: Python's running left fold from 0. -/
def sumAmounts (l : List Transaction) : ℚ :=
  l.foldl (fun s t => s + t.amount) 0

/-- One day of seconds. -/
def daySecs : Int := 86400

/-- The UTC calendar-day index of a timestamp (`datetime.date()` equality on
UTC datetimes coincides with equality of floored day numbers). -/
def dayOf (ts : Int) : Int := Int.ediv ts daySecs

/-- Period start used by the dashboard: `monthly` uses midnight on the first
of the current month (its timestamp `monthStart` is taken as a parameter,
abstracting the calendar), `weekly` is 7 days back, anything else 30 days. -/
def startDate (period : String) (now monthStart : Int) : Int :=
  if period = "monthly" then monthStart
  else if period = "weekly" then now - 7 * daySecs
  else now - 30 * daySecs

/-- The dashboard Mongo query on one document:
`{"user_id": uid, "deleted": False, "date": {"$gte": start}}` followed by
`Transaction(**parse_from_mongo(t))`.  The `$gte` on a string never matches
a null date (BSON type bracketing), so matching docs always parse. -/
def dashFilter (uid : String) (sd : Int) (d : Doc) : Option Transaction :=
  match d.date with
  | some dt =>
    if d.user_id == uid && d.deleted == false && decide (sd ≤ dt) then
      some (txOfDoc d dt)
    else none
  | none => none

/-- The period-filtered transactions of a user, before the sort. -/
def periodTxns (uid : String) (sd : Int) (docs : List Doc) : List Transaction :=
  docs.filterMap (dashFilter uid sd)

/-- `category_breakdown[k] = category_breakdown.get(k, 0) + v` on an
insertion-ordered dict. -/
def addCat (k : String) (v : ℚ) : List (String × ℚ) → List (String × ℚ)
  | [] => [(k, v)]
  | p :: rest => if p.1 == k then (p.1, p.2 + v) :: rest else p :: addCat k v rest

/-- One point of the 7-day trailing series (the `strftime` label abstracted
to a day index). -/
structure TrendPoint where
  date : Int
  amount : ℚ
deriving DecidableEq

/-- The `DashboardData` response model. -/
structure DashboardData where
  total_income : ℚ
  total_expenses : ℚ
  balance : ℚ
  budget_used_percent : ℚ
  recent_transactions : List Transaction
  category_breakdown : List (String × ℚ)
  monthly_trend : List TrendPoint
deriving DecidableEq

/-- The aggregation body of the dashboard handler, over the already fetched
and sorted period transactions. -/
def dashboardAggregate (current_user : User) (now : Int)
    (transactions : List Transaction) : DashboardData :=
  let total_income := sumAmounts (transactions.filter (fun t => t.type == "income"))
  let total_expenses := sumAmounts (transactions.filter (fun t => t.type == "expense"))
  let balance := total_income - total_expenses
  let budget_used_percent :=
    if current_user.monthly_budget > 0 then
      min (total_expenses / current_user.monthly_budget * 100) 100
    else 0
  let category_breakdown :=
    transactions.foldl
      (fun m t => if t.type == "expense" then addCat t.category t.amount m else m) []
  let monthly_trend :=
    (List.range 7).map (fun i =>
      let day := now - (i : Int) * daySecs
      let daily := sumAmounts ((transactions.filter
        (fun t => dayOf t.date == dayOf day)).filter (fun t => t.type == "expense"))
      TrendPoint.mk (dayOf day) daily)
  { total_income := total_income
    total_expenses := total_expenses
    balance := balance
    budget_used_percent := budget_used_percent
    recent_transactions := transactions.take 10
    category_breakdown := category_breakdown
    monthly_trend := monthly_trend.reverse }

/-- `GET /api/dashboard`: filters the user's non-deleted transactions by
period, sorts by date descending, and aggregates. -/
def get_dashboard_data (period : String) (current_user : User) (docs : List Doc)
    (now monthStart : Int) : DashboardData :=
  dashboardAggregate current_user now
    (sortBy txDateDesc
      (periodTxns current_user.id (startDate period now monthStart) docs))

/-- The `TransactionCreate` request body (after JSON decoding, before the
field validators run). -/
structure TransactionCreate where
  type : String
  amount : ℚ
  category : String
  description : String
  payment_type : String
  tags : List String
  date : Option Int
deriving DecidableEq

/-- The pydantic field validators of `TransactionCreate`, in field order:
`type` must be `income` or `expense`, `amount` must be strictly positive. -/
def validate_transaction_create (r : TransactionCreate) :
    Except String TransactionCreate :=
  if !(r.type == "income" || r.type == "expense") then
    .error "Type must be income or expense"
  else if r.amount ≤ 0 then
    .error "Amount must be positive"
  else .ok r

/-- FastAPI answers a pydantic request-body validation failure with its
`RequestValidationError` handler, HTTP 422 Unprocessable Entity; the endpoint
body never runs.  (This constant models framework behaviour, not repository
code.) -/
def requestValidationStatus : Nat := 422

/-- The `create_transaction` handler body: a missing date is stamped with
`now`, ownership and a fresh id are stamped, `deleted` starts false, and the
document is inserted. -/
def create_transaction (r : TransactionCreate) (current_user : User)
    (newId : String) (now : Int) (docs : List Doc) : Doc × List Doc :=
  let dt := r.date.getD now
  let d : Doc :=
    ⟨newId, current_user.id, r.type, r.amount, r.category, r.description,
     r.payment_type, r.tags, some dt, now, false⟩
  (d, docs ++ [d])

/-- `POST /api/transactions` as seen over HTTP: validation first (422 on
failure, store untouched), then the handler (200). -/
def post_transactions (r : TransactionCreate) (current_user : User)
    (newId : String) (now : Int) (docs : List Doc) : Nat × List Doc :=
  match validate_transaction_create r with
  | .error _ => (requestValidationStatus, docs)
  | .ok r' => (200, (create_transaction r' current_user newId now docs).2)

/-- Truthiness of an optional query/string value: `if category:` is false
for both `None` and the empty string. -/
def truthy : Option String → Bool
  | none => false
  | some s => !(s == "")

/-- The optional equality filters of the list query. -/
def optMatch (o : Option String) (field : String) : Bool :=
  if truthy o then o.getD "" == field else true

/-- The Mongo query of the list endpoint: owner, `deleted: False`, and the
optional (truthy) category/type equality filters. -/
def txQuery (current_user : User) (category type? : Option String) (d : Doc) : Bool :=
  d.user_id == current_user.id && d.deleted == false &&
  optMatch category d.category && optMatch type? d.type

/-- `GET /api/transactions`: query by owner and `deleted: False` plus the
optional category/type filters, sort date-descending, skip/limit, then build
the response models (which can fail on a null-dated doc). -/
def get_transactions (limit offset : Nat) (category type? : Option String)
    (current_user : User) (docs : List Doc) : Except String (List Transaction) :=
  mapE parseDoc
    ((((sortBy docDateDesc
      (docs.filter (txQuery current_user category type?))).drop offset).take limit))

/-- `update_one(filter, {"$set": apply})`: Mongo rewrites the first matching
document and reports the matched count (0 or 1 here). -/
def updateOne (sel : Doc → Bool) (apply : Doc → Doc) :
    List Doc → Nat × List Doc
  | [] => (0, [])
  | d :: rest =>
    if sel d then (1, apply d :: rest)
    else
      let r := updateOne sel apply rest
      (r.1, d :: r.2)

/-- The `$set` document of `update_transaction`:
`transaction_data.dict()` always carries exactly the seven payload keys
(including a possibly-`None` date) and never the `deleted` key. -/
def applyTxSet (p : TransactionCreate) (d : Doc) : Doc :=
  { d with type := p.type, amount := p.amount, category := p.category,
           description := p.description, payment_type := p.payment_type,
           tags := p.tags, date := p.date }

/-- `PUT /api/transactions/{id}` handler body (payload already validated):
update the first doc matching id and owner; 404 when none matched; then
re-read by id alone and rebuild the response model (a null date written by
the `$set` makes that re-validation raise, HTTP 500). -/
def update_transaction (transaction_id : String) (p : TransactionCreate)
    (current_user : User) (docs : List Doc) : List Doc × Except Nat Transaction :=
  let r := updateOne
    (fun d => d.id == transaction_id && d.user_id == current_user.id)
    (applyTxSet p) docs
  if r.1 == 0 then (r.2, .error 404)
  else
    match r.2.find? (fun d => d.id == transaction_id) with
    | none => (r.2, .error 500)
    | some d =>
      match parseDoc d with
      | .error _ => (r.2, .error 500)
      | .ok t => (r.2, .ok t)

/-- `DELETE /api/transactions/{id}`: `$set {"deleted": True}` on the first
doc matching id and owner; 404 when none matched.  The document stays in the
collection. -/
def delete_transaction (transaction_id : String) (current_user : User)
    (docs : List Doc) : List Doc × Except Nat String :=
  let r := updateOne
    (fun d => d.id == transaction_id && d.user_id == current_user.id)
    (fun d => { d with deleted := true }) docs
  if r.1 == 0 then (r.2, .error 404)
  else (r.2, .ok "Transaction deleted successfully")

/-- `POST /api/auth/register`: reject an already-registered email with 400,
otherwise insert a user with the default currency and budget and return it. -/
def register (name email password_hash newId : String) (now : Int)
    (users : List UserDoc) : List UserDoc × Except Nat UserDoc :=
  match users.find? (fun u => u.email == email) with
  | some _ => (users, .error 400)
  | none =>
    let u : UserDoc := ⟨newId, name, email, "₹", 10000, now, password_hash⟩
    (users ++ [u], .ok u)

/-- The rule-based tips, with the `f-string` presentation abstracted to the
data each message interpolates. -/
inductive Tip where
  | starter
  | topCategory (category : String) (percentage : ℚ)
  | smallExpenses (count : Nat) (total : ℚ)
  | overBudget (overspend : ℚ)
  | underBudget (savings : ℚ)
deriving DecidableEq

/-- The `projection` object of the insights response: the no-data shape
`{"balance": 0, ...}` or the forecast shape. -/
inductive ProjectionOut where
  | noData (balance : ℚ)
  | forecast (projected_spend projected_balance : ℚ)
deriving DecidableEq

/-- The insights response. -/
structure InsightsOut where
  tips : List Tip
  projection : ProjectionOut
deriving DecidableEq

/-- `max(category_totals, key=category_totals.get)` over the insertion-ordered
dict: the first entry of maximal value. -/
def maxByValue : List (String × ℚ) → Option (String × ℚ)
  | [] => none
  | p :: rest => some (rest.foldl (fun best q => if q.2 > best.2 then q else best) p)

/-- Gregorian leap year. -/
def isLeap (y : Nat) : Bool :=
  (y % 4 == 0 && !(y % 100 == 0)) || y % 400 == 0

/-- Days in a month of a year. -/
def monthLength (y m : Nat) : Nat :=
  if m == 2 then (if isLeap y then 29 else 28)
  else if m == 4 || m == 6 || m == 9 || m == 11 then 30
  else 31

/-- `(now.replace(month=now.month+1, day=1) - timedelta(days=1)).day`:
for January..November this is the length of the current month, but in
December `datetime.replace` is called with `month=13` and raises
`ValueError` (an unhandled exception, HTTP 500). -/
def days_in_month_calc (year month : Nat) : Except String Nat :=
  if month + 1 > 12 then .error "month must be in 1..12"
  else .ok (monthLength year month)

/-- The trailing-30-day expense list the insights endpoint works over
(query by owner, non-deleted, date within 30 days of `now`; then keep
expenses). -/
def insightsExpenses (current_user : User) (docs : List Doc) (now : Int) :
    List Transaction :=
  (periodTxns current_user.id (now - 30 * daySecs) docs).filter
    (fun t => t.type == "expense")

/-- `GET /api/insights`: the calendar fields of `now` are passed explicitly
(`year`, `month`, `day` with `day ≥ 1` in real datetimes). -/
def get_insights (current_user : User) (docs : List Doc) (now : Int)
    (year month day : Nat) : Except String InsightsOut :=
  let expenses := insightsExpenses current_user docs now
  if expenses.isEmpty then
    .ok ⟨[Tip.starter], ProjectionOut.noData 0⟩
  else
    let total_expenses := sumAmounts expenses
    let category_totals :=
      expenses.foldl (fun m t => addCat t.category t.amount m) []
    let tips1 : List Tip :=
      match maxByValue category_totals with
      | none => []
      | some p =>
        let percentage := p.2 / total_expenses * 100
        if percentage > 30 then [Tip.topCategory p.1 percentage] else []
    let small := expenses.filter (fun t => t.amount < 100)
    let tips2 : List Tip :=
      if small.length > 10 then [Tip.smallExpenses small.length (sumAmounts small)]
      else []
    let tips3 : List Tip :=
      if total_expenses > current_user.monthly_budget then
        [Tip.overBudget (total_expenses - current_user.monthly_budget)]
      else [Tip.underBudget (current_user.monthly_budget - total_expenses)]
    match days_in_month_calc year month with
    | .error e => .error e
    | .ok days_in_month =>
      let days_passed := day
      let avg_daily_spend : ℚ :=
        if days_passed > 0 then total_expenses / (days_passed : ℚ) else 0
      let projected_monthly_spend := avg_daily_spend * (days_in_month : ℚ)
      .ok ⟨(tips1 ++ tips2 ++ tips3).take 3,
           ProjectionOut.forecast projected_monthly_spend
             (current_user.monthly_budget - projected_monthly_spend)⟩

/-! Concrete sample data used by witnesses and counterexamples. -/

/-- A sample authenticated user. -/
def sampleUser : User := ⟨"u1", "Alice", "alice@example.com", "₹", 10000, 0⟩

/-- A user whose monthly budget is zero. -/
def zeroBudgetUser : User := ⟨"u1", "Alice", "alice@example.com", "₹", 0, 0⟩

/-- A live income document owned by `sampleUser`. -/
def sampleLiveDoc : Doc :=
  ⟨"t2", "u1", "income", 70, "Salary", "pay", "Cash", [], some 200, 0, false⟩

/-- A soft-deleted expense document owned by `sampleUser`. -/
def sampleDeletedDoc : Doc :=
  ⟨"t1", "u1", "expense", 50, "Food", "lunch", "Cash", [], some 100, 0, true⟩

/-- A store holding one deleted and one live document. -/
def sampleDocs : List Doc := [sampleDeletedDoc, sampleLiveDoc]

/-- An expense document owned by user `u2`, not by `sampleUser`. -/
def otherUserDoc : Doc :=
  ⟨"t3", "u2", "expense", 30, "Food", "snack", "Cash", [], some 150, 0, false⟩

/-- A create payload with a non-positive amount. -/
def badAmountReq : TransactionCreate :=
  ⟨"expense", -5, "Food", "bad", "Cash", [], none⟩

/-- A valid update payload carrying an explicit date. -/
def updatePayload : TransactionCreate :=
  ⟨"expense", 80, "Travel", "bus", "Card", [], some 300⟩

/-- An expense document inside the trailing 30-day window of `now = 1000`. -/
def decemberExpenseDoc : Doc :=
  ⟨"t5", "u1", "expense", 500, "Food", "dinner", "Cash", [], some 900, 0, false⟩

/-! General lemmas about the embedding. -/

theorem perm_insertBy (le : α → α → Bool) (a : α) :
    ∀ l : List α, (insertBy le a l).Perm (a :: l)
  | [] => List.Perm.refl _
  | b :: l => by
    unfold insertBy
    by_cases h : le a b = true
    · simp [h]
    · simp only [h, if_false]
      exact (List.Perm.cons b (perm_insertBy le a l)).trans (List.Perm.swap a b l)

theorem perm_sortBy (le : α → α → Bool) :
    ∀ l : List α, (sortBy le l).Perm l
  | [] => List.Perm.refl _
  | a :: l =>
    (perm_insertBy le a (sortBy le l)).trans (List.Perm.cons a (perm_sortBy le l))

theorem mem_sortBy {le : α → α → Bool} {l : List α} {a : α} :
    a ∈ sortBy le l ↔ a ∈ l :=
  (perm_sortBy le l).mem_iff

theorem foldl_amount_eq (l : List Transaction) :
    ∀ c : ℚ, l.foldl (fun s t => s + t.amount) c = c + (l.map Transaction.amount).sum := by
  induction l with
  | nil => intro c; simp
  | cons t l ih =>
    intro c
    simp only [List.foldl_cons, List.map_cons, List.sum_cons, ih]
    ring

theorem sumAmounts_eq_sum_map (l : List Transaction) :
    sumAmounts l = (l.map Transaction.amount).sum := by
  unfold sumAmounts
  rw [foldl_amount_eq]
  ring

theorem sumAmounts_perm {l₁ l₂ : List Transaction} (h : l₁.Perm l₂) :
    sumAmounts l₁ = sumAmounts l₂ := by
  rw [sumAmounts_eq_sum_map, sumAmounts_eq_sum_map]
  exact (h.map Transaction.amount).sum_eq

/-- C1: for every period-filtered transaction set the dashboard response
satisfies `balance = total_income - total_expenses`, where `total_income`
(resp. `total_expenses`) is the sum of the amounts of the period-filtered
transactions of type `income` (resp. `expense`). -/
theorem dashboard_balance_spec (period : String) (u : User) (docs : List Doc)
    (now monthStart : Int) :
    (get_dashboard_data period u docs now monthStart).balance =
      (get_dashboard_data period u docs now monthStart).total_income -
        (get_dashboard_data period u docs now monthStart).total_expenses ∧
    (get_dashboard_data period u docs now monthStart).total_income =
      sumAmounts ((periodTxns u.id (startDate period now monthStart) docs).filter
        (fun t => t.type == "income")) ∧
    (get_dashboard_data period u docs now monthStart).total_expenses =
      sumAmounts ((periodTxns u.id (startDate period now monthStart) docs).filter
        (fun t => t.type == "expense")) := by
  refine ⟨rfl, ?_, ?_⟩
  · exact sumAmounts_perm (List.Perm.filter _ (perm_sortBy txDateDesc _))
  · exact sumAmounts_perm (List.Perm.filter _ (perm_sortBy txDateDesc _))

/-- C2: the dashboard's `budget_used_percent` is capped at 100 for every
transaction set, and is 0 whenever the user's monthly budget is zero or
negative. -/
theorem budget_used_percent_capped (period : String) (u : User) (docs : List Doc)
    (now monthStart : Int) :
    (get_dashboard_data period u docs now monthStart).budget_used_percent ≤ 100 ∧
    (u.monthly_budget ≤ 0 →
      (get_dashboard_data period u docs now monthStart).budget_used_percent = 0) := by
  dsimp only [get_dashboard_data, dashboardAggregate]
  constructor
  · split
    · exact min_le_right _ _
    · norm_num
  · intro h
    rw [if_neg (not_lt.mpr h)]

/-- Witness for C2 at a concrete zero-budget user and store. -/
theorem budget_used_percent_capped_witness :
    zeroBudgetUser.monthly_budget ≤ 0 ∧
    (get_dashboard_data "monthly" zeroBudgetUser sampleDocs 1000 0).budget_used_percent = 0 :=
  ⟨by norm_num [zeroBudgetUser],
   (budget_used_percent_capped "monthly" zeroBudgetUser sampleDocs 1000 0).2
     (by norm_num [zeroBudgetUser])⟩

theorem mem_of_mapE_ok {f : α → Except ε β} :
    ∀ {l : List α} {ys : List β}, mapE f l = .ok ys → ∀ y ∈ ys, ∃ x ∈ l, f x = .ok y := by
  intro l
  induction l with
  | nil =>
    intro ys h y hy
    unfold mapE at h
    cases h
    cases hy
  | cons a l ih =>
    intro ys h y hy
    unfold mapE at h
    cases hfa : f a with
    | error e => rw [hfa] at h; cases h
    | ok b =>
      rw [hfa] at h
      cases hml : mapE f l with
      | error e => rw [hml] at h; cases h
      | ok bs =>
        rw [hml] at h
        cases h
        rcases List.mem_cons.mp hy with hyb | hybs
        · exact ⟨a, List.mem_cons_self a l, hyb ▸ hfa⟩
        · rcases ih hml y hybs with ⟨x, hx, hfx⟩
          exact ⟨x, List.mem_cons_of_mem a hx, hfx⟩

theorem filter_filter_of_imp {p q : α → Bool} (h : ∀ a, q a = true → p a = true) :
    ∀ l : List α, (l.filter p).filter q = l.filter q := by
  intro l
  induction l with
  | nil => rfl
  | cons a l ih =>
    by_cases hp : p a = true
    · simp only [List.filter_cons, hp, if_true, ih]
    · have hq : q a = false := by
        cases hqa : q a
        · rfl
        · exact absurd (h a hqa) hp
      simp only [List.filter_cons, hp, hq, if_false, Bool.false_eq_true, ih]

theorem filterMap_filter_of_none {f : α → Option β} {p : α → Bool}
    (h : ∀ a, p a = false → f a = none) :
    ∀ l : List α, (l.filter p).filterMap f = l.filterMap f := by
  intro l
  induction l with
  | nil => rfl
  | cons a l ih =>
    cases hp : p a with
    | true =>
      simp only [List.filter_cons, hp, if_true, List.filterMap_cons, ih]
    | false =>
      simp only [List.filter_cons, hp, Bool.false_eq_true, if_false,
        List.filterMap_cons, h a hp, ih]

theorem dashFilter_deleted_none {uid : String} {sd : Int} {d : Doc}
    (h : d.deleted = true) : dashFilter uid sd d = none := by
  unfold dashFilter
  cases d.date with
  | none => rfl
  | some dt => simp [h]

theorem dashFilter_not_deleted {uid : String} {sd : Int} {d : Doc} {t : Transaction}
    (h : dashFilter uid sd d = some t) : t.deleted = false := by
  unfold dashFilter at h
  split at h
  · split at h
    next hc =>
      cases h
      simp only [Bool.and_eq_true] at hc
      show d.deleted = false
      exact eq_of_beq hc.1.2
    next => cases h
  · cases h

theorem periodTxns_filter_deleted (uid : String) (sd : Int) (docs : List Doc) :
    periodTxns uid sd (docs.filter fun d => d.deleted == false) =
      periodTxns uid sd docs := by
  unfold periodTxns
  refine filterMap_filter_of_none (fun d hd => ?_) docs
  apply dashFilter_deleted_none
  simpa using hd

theorem get_dashboard_data_filter_deleted (period : String) (u : User)
    (docs : List Doc) (now monthStart : Int) :
    get_dashboard_data period u (docs.filter fun d => d.deleted == false) now monthStart =
      get_dashboard_data period u docs now monthStart := by
  unfold get_dashboard_data
  rw [periodTxns_filter_deleted]

theorem get_transactions_filter_deleted (limit offset : Nat)
    (category type? : Option String) (u : User) (docs : List Doc) :
    get_transactions limit offset category type? u (docs.filter fun d => d.deleted == false) =
      get_transactions limit offset category type? u docs := by
  unfold get_transactions
  rw [filter_filter_of_imp]
  intro d hd
  unfold txQuery at hd
  simp only [Bool.and_eq_true] at hd
  simpa using hd.1.1.2

/-- C3: deleted transactions are invisible to every read path: any list
returned by `GET /transactions` and the dashboard's recent transactions
contain only non-deleted records, and both endpoints compute exactly the
same response when all deleted documents are physically removed from the
store first, so no aggregate ever counts a deleted transaction. -/
theorem read_paths_exclude_deleted (limit offset : Nat)
    (category type? : Option String) (period : String) (u : User)
    (docs : List Doc) (now monthStart : Int) :
    (∀ l, get_transactions limit offset category type? u docs = .ok l →
      ∀ t ∈ l, t.deleted = false) ∧
    (∀ t ∈ (get_dashboard_data period u docs now monthStart).recent_transactions,
      t.deleted = false) ∧
    get_transactions limit offset category type? u
        (docs.filter fun d => d.deleted == false) =
      get_transactions limit offset category type? u docs ∧
    get_dashboard_data period u (docs.filter fun d => d.deleted == false) now monthStart =
      get_dashboard_data period u docs now monthStart := by
  refine ⟨?_, ?_, get_transactions_filter_deleted _ _ _ _ _ _,
    get_dashboard_data_filter_deleted _ _ _ _ _⟩
  · intro l h t ht
    rcases mem_of_mapE_ok h t ht with ⟨d, hd, hparse⟩
    have hdmem : d ∈ docs.filter (txQuery u category type?) := by
      have h1 := (List.take_sublist _ _).subset hd
      have h2 := (List.drop_sublist _ _).subset h1
      exact mem_sortBy.mp h2
    have hdel : d.deleted = false := by
      have := List.of_mem_filter hdmem
      unfold txQuery at this
      simp only [Bool.and_eq_true] at this
      simpa using this.1.1.2
    unfold parseDoc at hparse
    cases hdate : d.date with
    | none => rw [hdate] at hparse; cases hparse
    | some dt =>
      rw [hdate] at hparse
      cases hparse
      simpa [txOfDoc] using hdel
  · intro t ht
    have h1 := (List.take_sublist _ _).subset ht
    have h2 := mem_sortBy.mp h1
    rcases List.mem_filterMap.mp h2 with ⟨d, _, hsome⟩
    exact dashFilter_not_deleted hsome

/-- Witness for C3: in a store with one deleted and one live document, the
list endpoint returns exactly the live one. -/
theorem read_paths_exclude_deleted_witness :
    get_transactions 100 0 none none sampleUser sampleDocs =
      .ok [txOfDoc sampleLiveDoc 200] ∧
    (∀ t ∈ [txOfDoc sampleLiveDoc 200], t.deleted = false) :=
  ⟨by rfl,
   (read_paths_exclude_deleted 100 0 none none "monthly" sampleUser sampleDocs 1000 0).1
     [txOfDoc sampleLiveDoc 200] (by rfl)⟩

theorem updateOne_no_match {sel : Doc → Bool} {f : Doc → Doc} :
    ∀ {docs : List Doc}, (∀ d ∈ docs, sel d = false) →
      updateOne sel f docs = (0, docs) := by
  intro docs
  induction docs with
  | nil => intro _; rfl
  | cons d rest ih =>
    intro h
    unfold updateOne
    rw [if_neg]
    · rw [ih (fun x hx => h x (List.mem_cons_of_mem d hx))]
    · simp [h d (List.mem_cons_self d rest)]

theorem updateOne_matched {sel : Doc → Bool} {f : Doc → Doc} :
    ∀ {docs : List Doc}, (∃ d ∈ docs, sel d = true) →
      (updateOne sel f docs).1 = 1 := by
  intro docs
  induction docs with
  | nil => rintro ⟨d, hd, _⟩; cases hd
  | cons d rest ih =>
    rintro ⟨w, hw, hsel⟩
    unfold updateOne
    by_cases hd : sel d = true
    · rw [if_pos hd]
    · rw [if_neg hd]
      rcases List.mem_cons.mp hw with rfl | hwr
      · exact absurd hsel hd
      · exact ih ⟨w, hwr, hsel⟩

theorem updateOne_frame (sel : Doc → Bool) (f : Doc → Doc) :
    ∀ docs : List Doc,
      List.Forall₂ (fun d d' => d' = d ∨ (sel d = true ∧ d' = f d))
        docs (updateOne sel f docs).2 := by
  intro docs
  induction docs with
  | nil => exact List.Forall₂.nil
  | cons d rest ih =>
    unfold updateOne
    by_cases hd : sel d = true
    · rw [if_pos hd]
      exact List.Forall₂.cons (Or.inr ⟨hd, rfl⟩)
        (List.forall₂_same.mpr (fun x _ => Or.inl rfl))
    · rw [if_neg hd]
      exact List.Forall₂.cons (Or.inl rfl) ih

theorem forall₂_mem_right {R : α → β → Prop} :
    ∀ {l₁ : List α} {l₂ : List β}, List.Forall₂ R l₁ l₂ →
      ∀ b ∈ l₂, ∃ a ∈ l₁, R a b := by
  intro l₁ l₂ h
  induction h with
  | nil => intro b hb; cases hb
  | cons hr _ ih =>
    intro b hb
    rcases List.mem_cons.mp hb with rfl | hbs
    · exact ⟨_, List.mem_cons_self _ _, hr⟩
    · rcases ih b hbs with ⟨a, ha, har⟩
      exact ⟨a, List.mem_cons_of_mem _ ha, har⟩

/-- C5: a user cannot touch another user's transaction: when every document
carrying the requested id belongs to someone else, update and delete both
answer 404 and leave the store exactly as it was. -/
theorem cross_user_update_delete_404 (tid : String) (p : TransactionCreate)
    (a : User) (docs : List Doc)
    (h : ∀ d ∈ docs, d.id = tid → d.user_id ≠ a.id) :
    update_transaction tid p a docs = (docs, .error 404) ∧
    delete_transaction tid a docs = (docs, .error 404) := by
  have hsel : ∀ d ∈ docs, (d.id == tid && d.user_id == a.id) = false := by
    intro d hd
    by_cases hid : d.id = tid
    · have : d.user_id ≠ a.id := h d hd hid
      simp [this]
    · simp [hid]
  constructor
  · unfold update_transaction
    rw [updateOne_no_match hsel]
    rfl
  · unfold delete_transaction
    rw [updateOne_no_match hsel]
    rfl

/-- Witness for C5: user `u1` targeting a document owned by `u2`. -/
theorem cross_user_update_delete_404_witness :
    (∀ d ∈ [otherUserDoc], d.id = "t3" → d.user_id ≠ sampleUser.id) ∧
    update_transaction "t3" updatePayload sampleUser [otherUserDoc] =
      ([otherUserDoc], .error 404) ∧
    delete_transaction "t3" sampleUser [otherUserDoc] =
      ([otherUserDoc], .error 404) :=
  ⟨by decide,
   (cross_user_update_delete_404 "t3" updatePayload sampleUser [otherUserDoc]
      (by decide)).1,
   (cross_user_update_delete_404 "t3" updatePayload sampleUser [otherUserDoc]
      (by decide)).2⟩

/-- C6: registering an email that already exists fails with 400 and leaves
the user collection unchanged; registering a fresh email succeeds and
appends exactly one user. -/
theorem register_duplicate_email (name email pw newId : String) (now : Int)
    (users : List UserDoc) :
    ((∃ u ∈ users, u.email = email) →
      register name email pw newId now users = (users, .error 400)) ∧
    ((∀ u ∈ users, u.email ≠ email) →
      register name email pw newId now users =
        (users ++ [⟨newId, name, email, "₹", 10000, now, pw⟩],
         .ok ⟨newId, name, email, "₹", 10000, now, pw⟩)) := by
  constructor
  · rintro ⟨u, hu, hmail⟩
    unfold register
    cases hfind : users.find? (fun v => v.email == email) with
    | some w => rfl
    | none =>
      have := List.find?_eq_none.mp hfind u hu
      simp [hmail] at this
  · intro h
    unfold register
    cases hfind : users.find? (fun v => v.email == email) with
    | some w =>
      have hw := List.find?_some hfind
      have hwmem := List.mem_of_find?_eq_some hfind
      exact absurd (eq_of_beq hw) (h w hwmem)
    | none => rfl

/-- Witness for C6: the first registration of an email succeeds, the second
fails with 400 on the grown store. -/
theorem register_duplicate_email_witness :
    register "Alice" "alice@example.com" "h1" "u1" 0 [] =
      ([⟨"u1", "Alice", "alice@example.com", "₹", 10000, 0, "h1"⟩],
       .ok ⟨"u1", "Alice", "alice@example.com", "₹", 10000, 0, "h1"⟩) ∧
    register "Bob" "alice@example.com" "h2" "u2" 1
        [⟨"u1", "Alice", "alice@example.com", "₹", 10000, 0, "h1"⟩] =
      ([⟨"u1", "Alice", "alice@example.com", "₹", 10000, 0, "h1"⟩], .error 400) :=
  ⟨(register_duplicate_email "Alice" "alice@example.com" "h1" "u1" 0 []).2
     (by decide),
   (register_duplicate_email "Bob" "alice@example.com" "h2" "u2" 1
      [⟨"u1", "Alice", "alice@example.com", "₹", 10000, 0, "h1"⟩]).1
     ⟨_, List.mem_singleton.mpr rfl, rfl⟩⟩

theorem delete_transaction_fst (tid : String) (u : User) (docs : List Doc) :
    (delete_transaction tid u docs).1 =
      (updateOne (fun d => d.id == tid && d.user_id == u.id)
        (fun d => { d with deleted := true }) docs).2 := by
  dsimp only [delete_transaction]
  split <;> rfl

theorem update_transaction_fst (tid : String) (p : TransactionCreate)
    (u : User) (docs : List Doc) :
    (update_transaction tid p u docs).1 =
      (updateOne (fun d => d.id == tid && d.user_id == u.id)
        (applyTxSet p) docs).2 := by
  dsimp only [update_transaction]
  split
  · rfl
  · split
    · rfl
    · split <;> rfl

/-- C7: deleting an owned transaction succeeds, keeps the collection length
(the record is never physically removed), and rewrites documents only by
setting the `deleted` flag of the targeted record to true: id, owner, type,
amount, category, description, payment type, tags, date and creation time
all survive unchanged in every document. -/
theorem delete_soft_frame (tid : String) (u : User) (docs : List Doc)
    (h : ∃ d ∈ docs, d.id = tid ∧ d.user_id = u.id) :
    (delete_transaction tid u docs).2 = .ok "Transaction deleted successfully" ∧
    (delete_transaction tid u docs).1.length = docs.length ∧
    List.Forall₂ (fun d d' : Doc =>
      d'.id = d.id ∧ d'.user_id = d.user_id ∧ d'.type = d.type ∧
      d'.amount = d.amount ∧ d'.category = d.category ∧
      d'.description = d.description ∧ d'.payment_type = d.payment_type ∧
      d'.tags = d.tags ∧ d'.date = d.date ∧ d'.created_at = d.created_at ∧
      (d' = d ∨ (d'.deleted = true ∧ d.id = tid ∧ d.user_id = u.id)))
      docs (delete_transaction tid u docs).1 := by
  have hsel : ∃ d ∈ docs, (d.id == tid && d.user_id == u.id) = true := by
    rcases h with ⟨d, hd, h1, h2⟩
    exact ⟨d, hd, by simp [h1, h2]⟩
  have hframe := updateOne_frame
    (fun d => d.id == tid && d.user_id == u.id)
    (fun d => { d with deleted := true }) docs
  refine ⟨?_, ?_, ?_⟩
  · dsimp only [delete_transaction]
    rw [updateOne_matched hsel]
    rfl
  · rw [delete_transaction_fst]
    exact hframe.length_eq.symm
  · rw [delete_transaction_fst]
    refine List.Forall₂.imp ?_ hframe
    intro d d' hdd
    rcases hdd with rfl | ⟨hc, rfl⟩
    · exact ⟨rfl, rfl, rfl, rfl, rfl, rfl, rfl, rfl, rfl, rfl, Or.inl rfl⟩
    · simp only [Bool.and_eq_true] at hc
      exact ⟨rfl, rfl, rfl, rfl, rfl, rfl, rfl, rfl, rfl, rfl,
        Or.inr ⟨rfl, eq_of_beq hc.1, eq_of_beq hc.2⟩⟩

/-- Witness for C7: deleting the owned live document `t2`. -/
theorem delete_soft_frame_witness :
    (∃ d ∈ sampleDocs, d.id = "t2" ∧ d.user_id = sampleUser.id) ∧
    (delete_transaction "t2" sampleUser sampleDocs).2 =
      .ok "Transaction deleted successfully" ∧
    (delete_transaction "t2" sampleUser sampleDocs).1.length = sampleDocs.length :=
  ⟨by decide,
   (delete_soft_frame "t2" sampleUser sampleDocs (by decide)).1,
   (delete_soft_frame "t2" sampleUser sampleDocs (by decide)).2.1⟩

/-- C10: an update aimed at an owned, soft-deleted transaction still matches
(the ownership filter ignores the deleted flag), is not answered with 404,
and since the `$set` payload carries no `deleted` key, the record stays
soft-deleted; more generally the update rewrites no document's `deleted`
flag. -/
theorem update_soft_deleted_matches (tid : String) (p : TransactionCreate)
    (u : User) (docs : List Doc)
    (hex : ∃ d ∈ docs, d.id = tid ∧ d.user_id = u.id ∧ d.deleted = true)
    (hdel : ∀ d ∈ docs, d.id = tid → d.deleted = true) :
    (update_transaction tid p u docs).2 ≠ .error 404 ∧
    (∀ d' ∈ (update_transaction tid p u docs).1, d'.id = tid → d'.deleted = true) ∧
    List.Forall₂ (fun d d' : Doc => d'.deleted = d.deleted) docs
      (update_transaction tid p u docs).1 := by
  have hsel : ∃ d ∈ docs, (d.id == tid && d.user_id == u.id) = true := by
    rcases hex with ⟨d, hd, h1, h2, _⟩
    exact ⟨d, hd, by simp [h1, h2]⟩
  have hframe := updateOne_frame
    (fun d => d.id == tid && d.user_id == u.id) (applyTxSet p) docs
  refine ⟨?_, ?_, ?_⟩
  · dsimp only [update_transaction]
    rw [updateOne_matched hsel]
    rw [if_neg (by decide)]
    split
    · simp
    · split <;> simp
  · intro d' hd' hid
    rw [update_transaction_fst] at hd'
    rcases forall₂_mem_right hframe d' hd' with ⟨d, hd, hdd⟩
    rcases hdd with rfl | ⟨hc, rfl⟩
    · exact hdel d' hd hid
    · show d.deleted = true
      simp only [Bool.and_eq_true] at hc
      exact hdel d hd (eq_of_beq hc.1)
  · rw [update_transaction_fst]
    refine List.Forall₂.imp ?_ hframe
    intro d d' hdd
    rcases hdd with rfl | ⟨_, rfl⟩
    · rfl
    · rfl

/-- Witness for C10: updating the owned soft-deleted document `t1`. -/
theorem update_soft_deleted_matches_witness :
    (∃ d ∈ sampleDocs, d.id = "t1" ∧ d.user_id = sampleUser.id ∧ d.deleted = true) ∧
    (update_transaction "t1" updatePayload sampleUser sampleDocs).2 ≠ .error 404 ∧
    (∀ d' ∈ (update_transaction "t1" updatePayload sampleUser sampleDocs).1,
      d'.id = "t1" → d'.deleted = true) :=
  ⟨by decide,
   (update_soft_deleted_matches "t1" updatePayload sampleUser sampleDocs
      (by decide) (by decide)).1,
   (update_soft_deleted_matches "t1" updatePayload sampleUser sampleDocs
      (by decide) (by decide)).2.1⟩

/-- C4 counterexample: a create request with a non-positive amount is indeed
rejected without persisting anything, but the HTTP status of a pydantic
request-validation failure is FastAPI's 422, not the 400 the claim states
(no exception handler in the code remaps it). -/
theorem create_invalid_not_400 :
    (post_transactions badAmountReq sampleUser "t9" 0 []).1 ≠ 400 ∧
    (post_transactions badAmountReq sampleUser "t9" 0 []).2 = [] := by
  constructor
  · intro h
    have : (422 : Nat) = 400 := by
      calc (422 : Nat) = (post_transactions badAmountReq sampleUser "t9" 0 []).1 := by rfl
        _ = 400 := h
    cases this
  · rfl

/-- C4 amended: every create request whose amount is non-positive or whose
type is outside income/expense is rejected by the request-model validators
with HTTP 422 (FastAPI's request-validation status) and a message, and the
transaction store is left unchanged. -/
theorem create_invalid_rejected_422 (r : TransactionCreate) (u : User)
    (newId : String) (now : Int) (docs : List Doc)
    (h : r.amount ≤ 0 ∨ (r.type ≠ "income" ∧ r.type ≠ "expense")) :
    (post_transactions r u newId now docs).1 = 422 ∧
    (post_transactions r u newId now docs).2 = docs := by
  have hv : ∃ e, validate_transaction_create r = .error e := by
    unfold validate_transaction_create
    by_cases ht : (r.type == "income" || r.type == "expense") = true
    · rcases h with ha | ⟨h1, h2⟩
      · refine ⟨"Amount must be positive", ?_⟩
        rw [if_neg (by simp [ht]), if_pos ha]
      · have ht' : r.type = "income" ∨ r.type = "expense" := by simpa using ht
        rcases ht' with hi | he
        · exact absurd hi h1
        · exact absurd he h2
    · refine ⟨"Type must be income or expense", ?_⟩
      rw [if_pos (by simp [Bool.not_eq_true] at ht ⊢; exact ht)]
  rcases hv with ⟨e, hv⟩
  unfold post_transactions
  rw [hv]
  exact ⟨rfl, rfl⟩

/-- Witness for the amended C4 at the concrete bad-amount request. -/
theorem create_invalid_rejected_422_witness :
    (badAmountReq.amount ≤ 0 ∨
      (badAmountReq.type ≠ "income" ∧ badAmountReq.type ≠ "expense")) ∧
    (post_transactions badAmountReq sampleUser "t9" 0 []).1 = 422 ∧
    (post_transactions badAmountReq sampleUser "t9" 0 []).2 = [] :=
  ⟨Or.inl (by norm_num [badAmountReq]),
   create_invalid_rejected_422 badAmountReq sampleUser "t9" 0 []
     (Or.inl (by norm_num [badAmountReq]))⟩

/-- C9: when the trailing 30 days hold no expense for the user, insights
returns the single fixed starter tip and the no-data projection with
balance 0, before any division or calendar arithmetic can run. -/
theorem insights_no_expense_starter (u : User) (docs : List Doc) (now : Int)
    (year month day : Nat) (h : insightsExpenses u docs now = []) :
    get_insights u docs now year month day =
      .ok ⟨[Tip.starter], ProjectionOut.noData 0⟩ := by
  unfold get_insights
  rw [h]
  rfl

/-- Witness for C9: a store whose only document in the window is an income. -/
theorem insights_no_expense_starter_witness :
    insightsExpenses sampleUser [sampleLiveDoc] 1000 = [] ∧
    get_insights sampleUser [sampleLiveDoc] 1000 2025 6 15 =
      .ok ⟨[Tip.starter], ProjectionOut.noData 0⟩ :=
  ⟨by rfl, insights_no_expense_starter sampleUser [sampleLiveDoc] 1000 2025 6 15 (by rfl)⟩

/-- C8: evaluation at a December request.  A user with an expense inside the
trailing 30 days asks for insights while `now.month = 12`: the code computes
`days_in_month` via `now.replace(month=13, day=1)`, which raises
`ValueError` — the endpoint crashes instead of returning tips and a
projection. -/
theorem insights_december_value_error :
    get_insights sampleUser [decemberExpenseDoc] 1000 2025 12 15 =
      .error "month must be in 1..12" := by
  rfl

/-- Supporting evidence for the December diagnosis: in January..November the
insights endpoint does return at most three tips together with the linear
projection `total 30-day expenses / day-of-month * days-in-month`, exactly
as the specification describes. -/
theorem insights_projection_formula (u : User) (docs : List Doc) (now : Int)
    (year month day : Nat) (hm : month ≤ 11) (hd : 0 < day)
    (hne : insightsExpenses u docs now ≠ []) :
    ∃ tips : List Tip, tips.length ≤ 3 ∧
      get_insights u docs now year month day =
        .ok ⟨tips, ProjectionOut.forecast
          (sumAmounts (insightsExpenses u docs now) / (day : ℚ) *
            (monthLength year month : ℚ))
          (u.monthly_budget -
            sumAmounts (insightsExpenses u docs now) / (day : ℚ) *
              (monthLength year month : ℚ))⟩ := by
  unfold get_insights
  rw [if_neg (by simpa [List.isEmpty_iff] using hne)]
  have hcal : days_in_month_calc year month = .ok (monthLength year month) := by
    unfold days_in_month_calc
    rw [if_neg (by omega)]
  rw [hcal]
  dsimp only
  rw [if_pos hd]
  exact ⟨_, List.length_take_le _ _, rfl⟩

end Futura
